import Mathlib

/- Shallow embedding of the schema/validation layer of the IDP-vision
repository (src/src/schemas/base.py, src/src/schemas/document_id.py,
src/src/schemas/invoice.py).

Python `date` values are modelled as records of numerals.  `datetime.strptime`
restricted to the four formats used by the code is modelled character by
character after CPython's `_strptime` regexes:
  %d  maps to  3[01]|[12]\d|0[1-9]|[1-9]
  %m  maps to  1[0-2]|0[1-9]|[1-9]
  %Y  maps to  \d\d\d\d
a whitespace run in the format maps to \s+ (greedy; the token after it always
starts with a digit, so maximal munch coincides with backtracking), any other
format character is a literal, the regex must consume the whole string, and
the captured numbers are then checked by the `date` constructor
(1 <= year <= 9999, 1 <= month <= 12, day bounded by the month length).
The \d and \s classes are modelled over their ASCII part; no claim exercises
the non-ASCII part of the Unicode classes. -/

deriving instance DecidableEq for Except

structure PyDate where
  year : Nat
  month : Nat
  day : Nat
deriving DecidableEq

/-- Gregorian leap-year rule used by `datetime.date`. -/
def isLeap (y : Nat) : Bool := y % 4 == 0 && (y % 100 != 0 || y % 400 == 0)

/-- Month lengths as enforced by the `datetime.date` constructor. -/
def daysInMonth (y m : Nat) : Nat :=
  match m with
  | 1 => 31
  | 2 => if isLeap y then 29 else 28
  | 3 => 31
  | 4 => 30
  | 5 => 31
  | 6 => 30
  | 7 => 31
  | 8 => 31
  | 9 => 30
  | 10 => 31
  | 11 => 30
  | 12 => 31
  | _ => 0

/-- ASCII decimal digit (the ASCII part of the regex class \d). -/
abbrev isDigitC (c : Char) : Prop := 48 ≤ c.toNat ∧ c.toNat ≤ 57

/-- Numeric value of a digit character (Python `int` of the captured group). -/
def digitVal (c : Char) : Nat := c.toNat - 48

/-- ASCII whitespace, the ASCII part of both the regex class \s and the set
stripped by Python `str.strip()`. -/
def isPySpace (c : Char) : Bool :=
  c = ' ' || c = '\t' || c = '\n' || c = '\r' || c = '\x0b' || c = '\x0c'

/-- Python `str.strip()` on a character list (ASCII whitespace part). -/
def pyStrip (l : List Char) : List Char :=
  ((l.dropWhile isPySpace).reverse.dropWhile isPySpace).reverse

/-- The two-character alternatives of the %d / %m regexes: two digits whose
value lies in [lo, hi] (for %d: 3[01]|[12]\d|0[1-9], i.e. values 1..31;
for %m: 1[0-2]|0[1-9], i.e. values 1..12). -/
def num2 (lo hi : Nat) : List Char → Option (Nat × List Char)
  | a :: b :: rest =>
    if isDigitC a ∧ isDigitC b then
      if lo ≤ 10 * digitVal a + digitVal b ∧ 10 * digitVal a + digitVal b ≤ hi then
        some (10 * digitVal a + digitVal b, rest)
      else none
    else none
  | _ => none

/-- The one-character alternative [1-9] of the %d / %m regexes. -/
def num1 (lo hi : Nat) : List Char → Option (Nat × List Char)
  | a :: rest =>
    if isDigitC a ∧ lo ≤ digitVal a ∧ digitVal a ≤ hi then
      some (digitVal a, rest)
    else none
  | _ => none

/-- The %Y regex: exactly four digits. -/
def num4 : List Char → Option (Nat × List Char)
  | a :: b :: c :: d :: rest =>
    if isDigitC a ∧ isDigitC b ∧ isDigitC c ∧ isDigitC d then
      some (1000 * digitVal a + 100 * digitVal b + 10 * digitVal c + digitVal d, rest)
    else none
  | _ => none

/-- Separator for the space format, the regex \s+ : one or more whitespace characters, taken greedily (the token that
follows is always a digit, so greediness never has to backtrack). -/
def sepWs : List Char → Option (List Char)
  | c :: rest => if isPySpace c then some (rest.dropWhile isPySpace) else none
  | [] => none

/-- A literal separator character in the format. -/
def sepLit (ch : Char) : List Char → Option (List Char)
  | c :: rest => if c = ch then some rest else none
  | [] => none

/-- Tail of the three day-first formats once day and month are matched:
separator, four-digit year, end of string. -/
def dmyYear (d m : Nat) (sep : List Char → Option (List Char)) (s3 : List Char) :
    Option (Nat × Nat × Nat) :=
  match sep s3 with
  | none => none
  | some s4 =>
    match num4 s4 with
    | some (y, s5) => if s5 = [] then some (d, m, y) else none
    | none => none

/-- Tail of the day-first formats once the day is matched: separator, then
the %m alternation, each alternative tried with the full continuation
(regex backtracking). -/
def dmyMonth (d : Nat) (sep : List Char → Option (List Char)) (s1 : List Char) :
    Option (Nat × Nat × Nat) :=
  match sep s1 with
  | none => none
  | some s2 =>
    (match num2 1 12 s2 with
     | some (m, s3) => dmyYear d m sep s3
     | none => none) <|>
    (match num1 1 9 s2 with
     | some (m, s3) => dmyYear d m sep s3
     | none => none)

/-- The regex for the three day-first formats: the %d alternation, each
alternative tried with the full continuation. -/
def matchDMY (sep : List Char → Option (List Char)) (s : List Char) :
    Option (Nat × Nat × Nat) :=
  (match num2 1 31 s with
   | some (d, s1) => dmyMonth d sep s1
   | none => none) <|>
  (match num1 1 9 s with
   | some (d, s1) => dmyMonth d sep s1
   | none => none)

/-- Tail of the ISO format once year and month are matched: the %d
alternation followed by end of string. -/
def ymdDay (y m : Nat) (s4 : List Char) : Option (Nat × Nat × Nat) :=
  (match num2 1 31 s4 with
   | some (d, s5) => if s5 = [] then some (d, m, y) else none
   | none => none) <|>
  (match num1 1 9 s4 with
   | some (d, s5) => if s5 = [] then some (d, m, y) else none
   | none => none)

/-- Tail of the ISO format once the year is matched: the %m alternation,
each alternative followed by the literal dash and the day part. -/
def ymdMonth (y : Nat) (s2 : List Char) : Option (Nat × Nat × Nat) :=
  (match num2 1 12 s2 with
   | some (m, s3) =>
     (match sepLit '-' s3 with
      | none => none
      | some s4 => ymdDay y m s4)
   | none => none) <|>
  (match num1 1 9 s2 with
   | some (m, s3) =>
     (match sepLit '-' s3 with
      | none => none
      | some s4 => ymdDay y m s4)
   | none => none)

/-- The regex for the ISO format %Y-%m-%d. -/
def matchYMD (s : List Char) : Option (Nat × Nat × Nat) :=
  match num4 s with
  | none => none
  | some (y, s1) =>
    match sepLit '-' s1 with
    | none => none
    | some s2 => ymdMonth y s2

/-- The four formats accepted by both date parsers of the repository, in the
order both of them try them. -/
inductive DFormat
  | dSpace  -- "%d %m %Y"
  | dSlash  -- "%d/%m/%Y"
  | dDash   -- "%d-%m-%Y"
  | iso     -- "%Y-%m-%d"
deriving DecidableEq

def dateFormats : List DFormat := [.dSpace, .dSlash, .dDash, .iso]

/-- Embedding of `datetime.strptime(s, fmt).date()` for the four formats: regex match, then
the `date` constructor checks (a failed check is a ValueError, modelled as
`none` because every caller catches ValueError uniformly). -/
def strptimeDate (f : DFormat) (s : List Char) : Option PyDate :=
  match (match f with
         | .dSpace => matchDMY sepWs s
         | .dSlash => matchDMY (sepLit '/') s
         | .dDash => matchDMY (sepLit '-') s
         | .iso => matchYMD s) with
  | none => none
  | some (d, m, y) =>
    if 1 ≤ y ∧ y ≤ 9999 then
      if 1 ≤ m ∧ m ≤ 12 then
        if 1 ≤ d ∧ d ≤ daysInMonth y m then some ⟨y, m, d⟩ else none
      else none
    else none

/-- The format loop of `parse_flexible_date` (base.py lines 71-84): a
syntactic parse whose year is out of range raises ValueError inside the try
block, which the `except (ValueError, TypeError): continue` clause catches, so
the loop simply moves on to the next format. -/
def tryFormatsFlexible : List DFormat → List Char → Option PyDate
  | [], _ => none
  | f :: fs, s =>
    match strptimeDate f s with
    | some dt =>
      if dt.year < 1900 ∨ dt.year > 2100 then tryFormatsFlexible fs s else some dt
    | none => tryFormatsFlexible fs s

/-- Inputs of `parse_flexible_date`: None, a `date`, a string, or a value of
any other type. -/
inductive FlexInput
  | vNone
  | vDate (d : PyDate)
  | vStr (s : String)
  | vOther
deriving DecidableEq

/-- The three ValueError shapes raised by `parse_flexible_date`:
the year-range message naming the year, the invalid-format message naming the
input string, and the invalid-type message. -/
inductive FlexError
  | rangeError (year : Nat)
  | formatError (s : String)
  | typeError
deriving DecidableEq

/-- Embedding of `parse_flexible_date` (base.py lines 45-90). -/
def parse_flexible_date : FlexInput → Except FlexError (Option PyDate)
  | .vNone => .ok none
  | .vDate d =>
    if d.year < 1900 ∨ d.year > 2100 then .error (.rangeError d.year)
    else .ok (some d)
  | .vStr s =>
    match tryFormatsFlexible dateFormats (pyStrip s.data) with
    | some dt => .ok (some dt)
    | none => .error (.formatError s)
  | .vOther => .error .typeError

/-- The format loop of `parse_date_string` inside `DocumentIDFront.parse_dates`
(document_id.py lines 67-73): a parse with an out-of-range year simply falls
through the `if 1900 <= fecha.year <= 2100` guard and the loop continues. -/
def tryFormatsDoc : List DFormat → List Char → Option PyDate
  | [], _ => none
  | f :: fs, s =>
    match strptimeDate f s with
    | some dt =>
      if 1900 ≤ dt.year ∧ dt.year ≤ 2100 then some dt else tryFormatsDoc fs s
    | none => tryFormatsDoc fs s

/-- Embedding of `parse_date_string` (document_id.py lines 63-75); the error value carries
the offending string interpolated into the ValueError message. -/
def parse_date_string : Option String → Except String (Option PyDate)
  | none => .ok none
  | some s =>
    match tryFormatsDoc dateFormats (pyStrip s.data) with
    | some dt => .ok (some dt)
    | none => .error s

/- String renderings of a calendar date in the four accepted formats; these
formalise "the four supported string renderings of d" of the
format-agreement claim. -/

/-- The character of the decimal digit k. -/
def dch (k : Nat) : Char := Char.ofNat (48 + k)

/-- Day-first rendering with two-digit zero-padded day and month, a
four-digit year and separator `sc` (space, slash or dash). -/
def renderDMYList (sc : Char) (d m y : Nat) : List Char :=
  [dch (d / 10), dch (d % 10), sc, dch (m / 10), dch (m % 10), sc,
   dch (y / 1000), dch (y / 100 % 10), dch (y / 10 % 10), dch (y % 10)]

def renderDMY (sc : Char) (d m y : Nat) : String := ⟨renderDMYList sc d m y⟩

/-- ISO rendering YYYY-MM-DD with zero-padded fields. -/
def renderISOList (d m y : Nat) : List Char :=
  [dch (y / 1000), dch (y / 100 % 10), dch (y / 10 % 10), dch (y % 10), '-',
   dch (m / 10), dch (m % 10), '-', dch (d / 10), dch (d % 10)]

def renderISO (d m y : Nat) : String := ⟨renderISOList d m y⟩

/- Pydantic v2 validation embedding.  A raw JSON field is either absent from
the object, explicitly null, or carries a value of the payload type that the
claims exercise. -/

inductive RawVal (α : Type)
  | missing
  | null
  | val (a : α)
deriving DecidableEq

/-- Pydantic v2 per-field error kinds produced by the models under study:
`missing` (field required), `stringType` (input should be a valid string),
`modelType` (input should be a valid dictionary or model instance),
`numType` and `intType` (numeric coercion of null), `tooShort` / `tooLong`
(min_length / max_length), and `valueErr` (a ValueError raised inside a
model validator, carrying its message). -/
inductive ErrKind
  | missing
  | stringType
  | modelType
  | numType
  | intType
  | tooShort
  | tooLong
  | valueErr (msg : String)
deriving DecidableEq

/-- One entry of a pydantic ValidationError: location path plus error kind. -/
structure FieldError where
  loc : List String
  kind : ErrKind
deriving DecidableEq

def errsOf {α : Type} : Except FieldError α → List FieldError
  | .ok _ => []
  | .error e => [e]

def errsOfL {α : Type} : Except (List FieldError) α → List FieldError
  | .ok _ => []
  | .error es => es

/-- Nested-model errors get the outer field name prepended to their location. -/
def locErrs (name : String) (es : List FieldError) : List FieldError :=
  es.map fun e => ⟨name :: e.loc, e.kind⟩

/-- Validation of a required `str` field: a missing key is a `missing` error,
an explicit null is a `string_type` error (None is not a valid str), and a
string passes through. -/
def reqStr (name : String) (v : RawVal String) : Except FieldError String :=
  match v with
  | .missing => .error ⟨[name], .missing⟩
  | .null => .error ⟨[name], .stringType⟩
  | .val s => .ok s

/-- Validation of `id_number`: required str with min_length=9, max_length=9. -/
def reqStr9 (name : String) (v : RawVal String) : Except FieldError String :=
  match v with
  | .missing => .error ⟨[name], .missing⟩
  | .null => .error ⟨[name], .stringType⟩
  | .val s =>
    if s.length < 9 then .error ⟨[name], .tooShort⟩
    else if 9 < s.length then .error ⟨[name], .tooLong⟩
    else .ok s

/-- An `Optional[str]` field with default None: missing and null both give
None, a string gives the string. -/
def optStr (v : RawVal String) : Option String :=
  match v with
  | .val s => some s
  | _ => none

/-- A required `float` field (contracted_power). -/
def reqNum (name : String) (v : RawVal ℚ) : Except FieldError ℚ :=
  match v with
  | .missing => .error ⟨[name], .missing⟩
  | .null => .error ⟨[name], .numType⟩
  | .val q => .ok q

/-- A required `int` field (voltage_find). -/
def reqInt (name : String) (v : RawVal Int) : Except FieldError Int :=
  match v with
  | .missing => .error ⟨[name], .missing⟩
  | .null => .error ⟨[name], .intType⟩
  | .val n => .ok n

/-- Python `str.strip()` on a `String`. -/
def stripStr (s : String) : String := ⟨pyStrip s.data⟩

/- Address (base.py lines 23-42): five required strings, and the
AddressWithPostalCode variant adds an optional postal_code. -/

structure RawAddress where
  street : RawVal String
  street_type : RawVal String
  street_number : RawVal String
  city : RawVal String
  province : RawVal String
deriving DecidableEq

structure Address where
  street : String
  street_type : String
  street_number : String
  city : String
  province : String
deriving DecidableEq

structure RawAddressPC where
  street : RawVal String
  street_type : RawVal String
  street_number : RawVal String
  city : RawVal String
  province : RawVal String
  postal_code : RawVal String
deriving DecidableEq

structure AddressPC where
  street : String
  street_type : String
  street_number : String
  city : String
  province : String
  postal_code : Option String
deriving DecidableEq

/-- Field validation of `Address`: pydantic collects the errors of every
failing field, in field-definition order. -/
def validateAddressFields (a : RawAddress) : Except (List FieldError) Address :=
  match reqStr "street" a.street, reqStr "street_type" a.street_type,
        reqStr "street_number" a.street_number, reqStr "city" a.city,
        reqStr "province" a.province with
  | .ok s1, .ok s2, .ok s3, .ok s4, .ok s5 => .ok ⟨s1, s2, s3, s4, s5⟩
  | e1, e2, e3, e4, e5 =>
    .error (errsOf e1 ++ errsOf e2 ++ errsOf e3 ++ errsOf e4 ++ errsOf e5)

/-- Field validation of `AddressWithPostalCode`. -/
def validateAddressPCFields (a : RawAddressPC) : Except (List FieldError) AddressPC :=
  match reqStr "street" a.street, reqStr "street_type" a.street_type,
        reqStr "street_number" a.street_number, reqStr "city" a.city,
        reqStr "province" a.province with
  | .ok s1, .ok s2, .ok s3, .ok s4, .ok s5 =>
    .ok ⟨s1, s2, s3, s4, s5, optStr a.postal_code⟩
  | e1, e2, e3, e4, e5 =>
    .error (errsOf e1 ++ errsOf e2 ++ errsOf e3 ++ errsOf e4 ++ errsOf e5)

/-- A required (no default) field holding a nested AddressWithPostalCode
model: missing key gives `missing`, null gives `model_type`, a nested object
is validated recursively with prefixed locations. -/
def validateAddressPCField (name : String) (v : RawVal RawAddressPC) :
    Except (List FieldError) AddressPC :=
  match v with
  | .missing => .error [⟨[name], .missing⟩]
  | .null => .error [⟨[name], .modelType⟩]
  | .val a =>
    match validateAddressPCFields a with
    | .ok x => .ok x
    | .error es => .error (locErrs name es)

/- DocumentIDFront (document_id.py lines 7-81): PersonNameMixin fields
(first_name, second_name, first_surname, second_surname) followed by
id_number (length exactly 9), sex, nacionality, and the three raw date
strings; the model_validator `parse_dates` then fills the three parsed
date fields.  The computed display fields type_id and sex_text play no part
in any claim and are not modelled. -/

structure RawFront where
  first_name : RawVal String
  second_name : RawVal String
  first_surname : RawVal String
  second_surname : RawVal String
  id_number : RawVal String
  sex : RawVal String
  nacionality : RawVal String
  birth_date_str : RawVal String
  validate_date_str : RawVal String
  emision_date_str : RawVal String
deriving DecidableEq

structure DocumentIDFront where
  first_name : String
  second_name : Option String
  first_surname : String
  second_surname : String
  id_number : String
  sex : String
  nacionality : Option String
  birth_date_str : String
  validate_date_str : String
  emision_date_str : Option String
  birth_date : Option PyDate
  validate_date : Option PyDate
  emision_date : Option PyDate
deriving DecidableEq

/-- Validation of `DocumentIDFront`: the required fields are checked in
definition order with all failures collected; if they all pass, the
model_validator `parse_dates` parses birth, validity and emission strings in
that order and the first ValueError aborts it (a model-validator error has an
empty location). -/
def validateDocumentIDFront (r : RawFront) : Except (List FieldError) DocumentIDFront :=
  match reqStr "first_name" r.first_name, reqStr "first_surname" r.first_surname,
        reqStr "second_surname" r.second_surname, reqStr9 "id_number" r.id_number,
        reqStr "sex" r.sex, reqStr "birth_date_str" r.birth_date_str,
        reqStr "validate_date_str" r.validate_date_str with
  | .ok fn, .ok fs, .ok ss, .ok idn, .ok sx, .ok bs, .ok vs =>
    match parse_date_string (some bs) with
    | .error msg => .error [⟨[], .valueErr msg⟩]
    | .ok bd =>
      match parse_date_string (some vs) with
      | .error msg => .error [⟨[], .valueErr msg⟩]
      | .ok vd =>
        match parse_date_string (optStr r.emision_date_str) with
        | .error msg => .error [⟨[], .valueErr msg⟩]
        | .ok ed =>
          .ok ⟨fn, optStr r.second_name, fs, ss, idn, sx, optStr r.nacionality,
               bs, vs, optStr r.emision_date_str, bd, vd, ed⟩
  | e1, e2, e3, e4, e5, e6, e7 =>
    .error (errsOf e1 ++ errsOf e2 ++ errsOf e3 ++ errsOf e4 ++ errsOf e5 ++
            errsOf e6 ++ errsOf e7)

/- DocumentIDBack (document_id.py lines 84-87): a single field
`address : Optional[Address]` declared through `Field(description=...)` with
no default, hence required but nullable. -/

structure RawBack where
  address : RawVal RawAddress
deriving DecidableEq

structure DocumentIDBack where
  address : Option Address
deriving DecidableEq

def validateDocumentIDBack (r : RawBack) : Except (List FieldError) DocumentIDBack :=
  match r.address with
  | .missing => .error [⟨["address"], .missing⟩]
  | .null => .ok ⟨none⟩
  | .val a =>
    match validateAddressFields a with
    | .ok x => .ok ⟨some x⟩
    | .error es => .error (locErrs "address" es)

/- DocumentID (document_id.py lines 90-102): `front : Optional[DocumentIDFront]`
and `back : Optional[DocumentIDBack]`, both annotated without a default, hence
required but nullable. -/

structure RawDocID where
  front : RawVal RawFront
  back : RawVal RawBack
deriving DecidableEq

structure DocumentID where
  front : Option DocumentIDFront
  back : Option DocumentIDBack
deriving DecidableEq

def validateDocumentID (r : RawDocID) : Except (List FieldError) DocumentID :=
  let eF : Except (List FieldError) (Option DocumentIDFront) :=
    match r.front with
    | .missing => .error [⟨["front"], .missing⟩]
    | .null => .ok none
    | .val rf =>
      match validateDocumentIDFront rf with
      | .ok f => .ok (some f)
      | .error es => .error (locErrs "front" es)
  let eB : Except (List FieldError) (Option DocumentIDBack) :=
    match r.back with
    | .missing => .error [⟨["back"], .missing⟩]
    | .null => .ok none
    | .val rb =>
      match validateDocumentIDBack rb with
      | .ok b => .ok (some b)
      | .error es => .error (locErrs "back" es)
  match eF, eB with
  | .ok f, .ok b => .ok ⟨f, b⟩
  | _, _ => .error (errsOfL eF ++ errsOfL eB)

/- SupplyPointData (invoice.py lines 30-65). -/

/-- A supply-point validation either raises a pydantic ValidationError or, if
an exception other than ValueError escapes a validator, that exception
itself (pydantic only converts ValueError and AssertionError into
validation errors). -/
inductive SPFailure
  | validationError (es : List FieldError)
  | attributeError (attr : String)
deriving DecidableEq

structure RawSupplyPoint where
  address : RawVal RawAddressPC
  cups : RawVal String
  distributor_company : RawVal String
  contracted_power : RawVal ℚ
  voltage_find : RawVal Int
deriving DecidableEq

structure SupplyPointData where
  address : AddressPC
  cups : String
  distributor_company : Option String
  contracted_power : ℚ
  voltage_find : Int
  voltage : Int
  voltage_text : String
deriving DecidableEq

/-- Embedding of `SupplyPointData.validate_distributor_company` (invoice.py lines 59-65).
When the declared value is None the code evaluates `get_distributor_company(cls.cups)`;
inside a pydantic v2 `field_validator` `cls` is the model class, and model
fields are not class attributes (the metaclass raises `AttributeError` for
them), so `cls.cups` raises AttributeError before the lookup helper
(`src/utils/invoice.py`, absent from the snapshot) is ever invoked — and had
the lookup returned a falsy value, the final `return v.strip()` would have
been `None.strip()`, an AttributeError as well.  When a string is declared it
is stripped and returned. -/
def validate_distributor_company (v : Option String) : Except SPFailure (Option String) :=
  match v with
  | none => .error (.attributeError "cups")
  | some s => .ok (some (stripStr s))

/-- Embedding of `SupplyPointData.calculate_voltage` (invoice.py lines 43-57): the
model_validator run after all fields validate; it sets voltage and
voltage_text from voltage_find and returns self. -/
def calculate_voltage (sp : SupplyPointData) : SupplyPointData :=
  if 300 ≤ sp.voltage_find then
    { sp with voltage := 230, voltage_text := "MONOFÁSICO" }
  else
    { sp with voltage := 400, voltage_text := "BIFÁSICO/TRIFÁSICO" }

/-- Assembly of a supply point once the distributor validator has not
crashed: field errors are collected in definition order (address, cups,
contracted_power, voltage_find); on success the record is built (voltage and
voltage_text start as the unvalidated None defaults, modelled by placeholder
values) and `calculate_voltage` overwrites them. -/
def spAssemble (eA : Except (List FieldError) AddressPC) (eC : Except FieldError String)
    (dc : Option String) (eP : Except FieldError ℚ) (eV : Except FieldError Int) :
    Except SPFailure SupplyPointData :=
  match eA, eC, eP, eV with
  | .ok a, .ok c, .ok p, .ok v =>
    .ok (calculate_voltage
      { address := a, cups := c, distributor_company := dc, contracted_power := p,
        voltage_find := v, voltage := 0, voltage_text := "" })
  | _, _, _, _ =>
    .error (.validationError (errsOfL eA ++ errsOf eC ++ errsOf eP ++ errsOf eV))

/-- Validation of `SupplyPointData`.  The distributor field_validator has
mode='after' and no validate_default, so it is skipped when the key is
missing (the field keeps its None default); an explicit null reaches it as
None and its AttributeError aborts the whole validation. -/
def validateSupplyPoint (r : RawSupplyPoint) : Except SPFailure SupplyPointData :=
  match (match r.distributor_company with
         | .missing => .ok none
         | .null => validate_distributor_company none
         | .val s => validate_distributor_company (some s) :
         Except SPFailure (Option String)) with
  | .error e => .error e
  | .ok dc =>
    spAssemble (validateAddressPCField "address" r.address) (reqStr "cups" r.cups) dc
      (reqNum "contracted_power" r.contracted_power) (reqInt "voltage_find" r.voltage_find)

/-- Modelled from the spec: `max_contracted_power` (spec section 4.2).  No
function in src/ computes the maximum of several candidate power readings;
the selection is delegated to the external extraction step through the
`contracted_power` field description in invoice.py line 38 ("if find multiple
values, take the highest").  Following the spec's words, the resolver takes
the candidate readings and retains the highest value; an empty sequence has
no maximum. -/
def max_contracted_power : List ℚ → Option ℚ
  | [] => none
  | x :: xs => some (xs.foldl max x)

/- Concrete raw inputs used by the per-claim theorems. -/

/-- A fully valid raw AddressWithPostalCode object. -/
def rawAddrOk : RawAddressPC :=
  ⟨.val "GRAN VIA", .val "CALLE", .val "12", .val "MADRID", .val "MADRID", .val "28013"⟩

/-- Raw invoice supply point whose cups key holds an explicit null. -/
def rawSPcupsNull : RawSupplyPoint :=
  ⟨.val rawAddrOk, .null, .val "IBERDROLA", .val 5, .val 230⟩

/-- Raw invoice supply point with no cups key at all. -/
def rawSPcupsMissing : RawSupplyPoint :=
  ⟨.val rawAddrOk, .missing, .val "IBERDROLA", .val 5, .val 230⟩

/-- Raw supply point whose distributor_company key holds an explicit null. -/
def rawSPdistNull : RawSupplyPoint :=
  ⟨.val rawAddrOk, .val "ES0031607515707001RC0F", .null, .val 5, .val 230⟩

/-- Raw supply point declaring a distributor with surrounding whitespace. -/
def rawSPdistPad : RawSupplyPoint :=
  ⟨.val rawAddrOk, .val "ES0031607515707001RC0F", .val " IBERDROLA ", .val 5, .val 230⟩

/-- Raw supply point with a voltage reading exactly at the 300 threshold. -/
def rawSP300 : RawSupplyPoint :=
  ⟨.val rawAddrOk, .val "ES0031607515707001RC0F", .val "IBERDROLA", .val 5, .val 300⟩

/-- A raw DocumentIDFront with fixed person fields and the three date strings
as parameters. -/
def mkRawFront (bs vs es : RawVal String) : RawFront :=
  ⟨.val "JUAN", .missing, .val "GARCIA", .val "LOPEZ", .val "12345678Z", .val "M",
   .missing, bs, vs, es⟩

/-- The validated front produced by `mkRawFront` inputs. -/
def mkFront (bs vs : String) (es : Option String) (bd vd ed : Option PyDate) :
    DocumentIDFront :=
  ⟨"JUAN", none, "GARCIA", "LOPEZ", "12345678Z", "M", none, bs, vs, es, bd, vd, ed⟩

/-- A raw front with empty first_name and first_surname and everything else
valid. -/
def rawFrontEmptyNames : RawFront :=
  ⟨.val "", .missing, .val "", .val "LOPEZ", .val "12345678Z", .val "M",
   .missing, .val "01 01 2000", .val "01 01 2030", .missing⟩

/-- Raw supply point with the distributor key entirely absent. -/
def rawSPdistMissing : RawSupplyPoint :=
  ⟨.val rawAddrOk, .val "ES0031607515707001RC0F", .missing, .val 5, .val 230⟩

/-- Raw supply point with a voltage reading just below the 300 threshold. -/
def rawSP299 : RawSupplyPoint :=
  ⟨.val rawAddrOk, .val "ES0031607515707001RC0F", .val "IBERDROLA", .val 5, .val 299⟩

/-- The validated address coming from `rawAddrOk`. -/
def addrOk : AddressPC := ⟨"GRAN VIA", "CALLE", "12", "MADRID", "MADRID", some "28013"⟩

/-- Validated supply point with the declared distributor trimmed. -/
def spTrimmed : SupplyPointData :=
  ⟨addrOk, "ES0031607515707001RC0F", some "IBERDROLA", 5, 230, 400, "BIFÁSICO/TRIFÁSICO"⟩

/-- Validated supply point with no distributor value at all. -/
def spNoDist : SupplyPointData :=
  ⟨addrOk, "ES0031607515707001RC0F", none, 5, 230, 400, "BIFÁSICO/TRIFÁSICO"⟩

/-- Validated supply point for the reading 300. -/
def sp300val : SupplyPointData :=
  ⟨addrOk, "ES0031607515707001RC0F", some "IBERDROLA", 5, 300, 230, "MONOFÁSICO"⟩

/-- Validated supply point for the reading 299. -/
def sp299val : SupplyPointData :=
  ⟨addrOk, "ES0031607515707001RC0F", some "IBERDROLA", 5, 299, 400, "BIFÁSICO/TRIFÁSICO"⟩

/-- Raw front whose emission date 2030-03-15 postdates its validity date
2020-03-15. -/
def rawFrontOV : RawFront :=
  mkRawFront (.val "15 03 1990") (.val "15 03 2020") (.val "15 03 2030")

/-- The validated record `rawFrontOV` produces. -/
def frontOV : DocumentIDFront :=
  mkFront "15 03 1990" "15 03 2020" (some "15 03 2030")
    (some ⟨1990, 3, 15⟩) (some ⟨2020, 3, 15⟩) (some ⟨2030, 3, 15⟩)

/-- The validated record `rawFrontEmptyNames` produces. -/
def frontEmptyNames : DocumentIDFront :=
  ⟨"", none, "", "LOPEZ", "12345678Z", "M", none, "01 01 2000", "01 01 2030", none,
   some ⟨2000, 1, 1⟩, some ⟨2030, 1, 1⟩, none⟩

/-- A fully valid raw front exercising the slash and ISO date formats and a
null emission date. -/
def rawFrontC10 : RawFront :=
  ⟨.val "ANA", .val "MARIA", .val "PEREZ", .val "RUIZ", .val "X1234567L", .val "F",
   .val "ESP", .val "02/05/1985", .val "2031-01-09", .null⟩

/-- The validated record `rawFrontC10` produces. -/
def frontC10 : DocumentIDFront :=
  ⟨"ANA", some "MARIA", "PEREZ", "RUIZ", "X1234567L", "F", some "ESP",
   "02/05/1985", "2031-01-09", none, some ⟨1985, 5, 2⟩, some ⟨2031, 1, 9⟩, none⟩

/- Digit-character and separator lemmas. -/

theorem dch_toNat {k : Nat} (h : k < 10) : (dch k).toNat = 48 + k := by
  interval_cases k <;> rfl

theorem isDigitC_dch {k : Nat} (h : k < 10) : isDigitC (dch k) := by
  refine ⟨?_, ?_⟩ <;> rw [dch_toNat h] <;> omega

theorem digitVal_dch {k : Nat} (h : k < 10) : digitVal (dch k) = k := by
  unfold digitVal
  rw [dch_toNat h]
  omega

theorem isPySpace_dch {k : Nat} (h : k < 10) : isPySpace (dch k) = false := by
  interval_cases k <;> rfl

theorem dch_ne {k : Nat} (h : k < 10) {ch : Char} (hch : ch.toNat < 48) : dch k ≠ ch := by
  intro he
  rw [← he, dch_toNat h] at hch
  omega

theorem dropWhile_space_dch {k : Nat} (h : k < 10) (t : List Char) :
    List.dropWhile isPySpace (dch k :: t) = dch k :: t := by
  rw [List.dropWhile_cons, isPySpace_dch h]
  simp

theorem num2_dch {a b : Nat} (ha : a < 10) (hb : b < 10) (lo hi : Nat) (rest : List Char) :
    num2 lo hi (dch a :: dch b :: rest) =
      if lo ≤ 10 * a + b ∧ 10 * a + b ≤ hi then some (10 * a + b, rest) else none := by
  simp only [num2]
  rw [if_pos ⟨isDigitC_dch ha, isDigitC_dch hb⟩, digitVal_dch ha, digitVal_dch hb]

theorem num1_dch {a : Nat} (ha : a < 10) (lo hi : Nat) (rest : List Char) :
    num1 lo hi (dch a :: rest) = if lo ≤ a ∧ a ≤ hi then some (a, rest) else none := by
  simp only [num1]
  rw [digitVal_dch ha]
  by_cases h : lo ≤ a ∧ a ≤ hi
  · rw [if_pos ⟨isDigitC_dch ha, h.1, h.2⟩, if_pos h]
  · rw [if_neg fun hc => h ⟨hc.2.1, hc.2.2⟩, if_neg h]

theorem num4_dch {a b c e : Nat} (ha : a < 10) (hb : b < 10) (hc : c < 10) (he : e < 10)
    (rest : List Char) :
    num4 (dch a :: dch b :: dch c :: dch e :: rest) =
      some (1000 * a + 100 * b + 10 * c + e, rest) := by
  simp only [num4]
  rw [if_pos ⟨isDigitC_dch ha, isDigitC_dch hb, isDigitC_dch hc, isDigitC_dch he⟩,
      digitVal_dch ha, digitVal_dch hb, digitVal_dch hc, digitVal_dch he]

theorem sepWs_dch {k : Nat} (h : k < 10) (rest : List Char) :
    sepWs (dch k :: rest) = none := by
  simp only [sepWs]
  rw [isPySpace_dch h]
  simp

theorem sepWs_space (rest : List Char) :
    sepWs (' ' :: rest) = some (rest.dropWhile isPySpace) := by
  unfold sepWs
  simp [isPySpace]

theorem sepLit_self (ch : Char) (rest : List Char) : sepLit ch (ch :: rest) = some rest := by
  simp [sepLit]

theorem sepLit_ne {ch c : Char} (h : c ≠ ch) (rest : List Char) :
    sepLit ch (c :: rest) = none := by
  simp only [sepLit]
  rw [if_neg h]

theorem sepWs_sep {k : Nat} (h : k < 10) (t : List Char) :
    sepWs (' ' :: dch k :: t) = some (dch k :: t) := by
  rw [sepWs_space, dropWhile_space_dch h]

theorem sepLit_sep (ch : Char) {k : Nat} (_h : k < 10) (t : List Char) :
    sepLit ch (ch :: dch k :: t) = some (dch k :: t) := sepLit_self ch _

theorem daysInMonth_le_31 (y m : Nat) : daysInMonth y m ≤ 31 := by
  unfold daysInMonth
  split <;> try omega
  split <;> omega

theorem sepWs_notWs {c : Char} (h : isPySpace c = false) (t : List Char) :
    sepWs (c :: t) = none := by
  simp only [sepWs]
  rw [h]
  simp

theorem dmyMonth_none (d : Nat) (sep : List Char → Option (List Char)) (s1 : List Char)
    (h : sep s1 = none) : dmyMonth d sep s1 = none := by
  simp only [dmyMonth]
  rw [h]

/- Round-trip of the renderings through the format regexes. -/

theorem dmyYear_render (d m y : Nat) (hy : y ≤ 9999)
    (sep : List Char → Option (List Char)) (sc : Char)
    (hsep : ∀ (k : Nat) (t : List Char), k < 10 → sep (sc :: dch k :: t) = some (dch k :: t)) :
    dmyYear d m sep
      (sc :: dch (y / 1000) :: dch (y / 100 % 10) :: dch (y / 10 % 10) :: dch (y % 10) :: []) =
      some (d, m, y) := by
  have h1 : y / 1000 < 10 := by omega
  have h2 : y / 100 % 10 < 10 := by omega
  have h3 : y / 10 % 10 < 10 := by omega
  have h4 : y % 10 < 10 := by omega
  have hyv : 1000 * (y / 1000) + 100 * (y / 100 % 10) + 10 * (y / 10 % 10) + y % 10 = y := by
    omega
  simp only [dmyYear]
  rw [hsep _ _ h1]
  simp only []
  rw [num4_dch h1 h2 h3 h4, hyv]
  rfl

theorem dmyMonth_render (d m y : Nat) (hm1 : 1 ≤ m) (hm2 : m ≤ 12) (hy : y ≤ 9999)
    (sep : List Char → Option (List Char)) (sc : Char)
    (hsep : ∀ (k : Nat) (t : List Char), k < 10 → sep (sc :: dch k :: t) = some (dch k :: t)) :
    dmyMonth d sep
      (sc :: dch (m / 10) :: dch (m % 10) :: sc ::
       dch (y / 1000) :: dch (y / 100 % 10) :: dch (y / 10 % 10) :: dch (y % 10) :: []) =
      some (d, m, y) := by
  have hm10 : m / 10 < 10 := by omega
  have hmm : m % 10 < 10 := by omega
  have hme : 10 * (m / 10) + m % 10 = m := by omega
  simp only [dmyMonth]
  rw [hsep _ _ hm10]
  simp only []
  rw [num2_dch hm10 hmm, hme, if_pos ⟨hm1, hm2⟩]
  simp only []
  rw [dmyYear_render d m y hy sep sc hsep]
  rfl

theorem matchDMY_render (d m y : Nat) (hd1 : 1 ≤ d) (hd2 : d ≤ 31) (hm1 : 1 ≤ m)
    (hm2 : m ≤ 12) (hy : y ≤ 9999)
    (sep : List Char → Option (List Char)) (sc : Char)
    (hsep : ∀ (k : Nat) (t : List Char), k < 10 → sep (sc :: dch k :: t) = some (dch k :: t)) :
    matchDMY sep (renderDMYList sc d m y) = some (d, m, y) := by
  have hd10 : d / 10 < 10 := by omega
  have hdm : d % 10 < 10 := by omega
  have hde : 10 * (d / 10) + d % 10 = d := by omega
  simp only [matchDMY, renderDMYList]
  rw [num2_dch hd10 hdm, hde, if_pos ⟨hd1, hd2⟩]
  simp only []
  rw [dmyMonth_render d m y hm1 hm2 hy sep sc hsep]
  rfl

theorem ymdDay_render (d m y : Nat) (hd1 : 1 ≤ d) (hd2 : d ≤ 31) :
    ymdDay y m (dch (d / 10) :: dch (d % 10) :: []) = some (d, m, y) := by
  have hd10 : d / 10 < 10 := by omega
  have hdm : d % 10 < 10 := by omega
  have hde : 10 * (d / 10) + d % 10 = d := by omega
  simp only [ymdDay]
  rw [num2_dch hd10 hdm, hde, if_pos ⟨hd1, hd2⟩]
  rfl

theorem ymdMonth_render (d m y : Nat) (hd1 : 1 ≤ d) (hd2 : d ≤ 31) (hm1 : 1 ≤ m)
    (hm2 : m ≤ 12) :
    ymdMonth y (dch (m / 10) :: dch (m % 10) :: '-' :: dch (d / 10) :: dch (d % 10) :: []) =
      some (d, m, y) := by
  have hm10 : m / 10 < 10 := by omega
  have hmm : m % 10 < 10 := by omega
  have hme : 10 * (m / 10) + m % 10 = m := by omega
  simp only [ymdMonth]
  rw [num2_dch hm10 hmm, hme, if_pos ⟨hm1, hm2⟩]
  simp only []
  rw [sepLit_sep '-' (show d / 10 < 10 by omega)]
  simp only []
  rw [ymdDay_render d m y hd1 hd2]
  rfl

theorem matchYMD_render (d m y : Nat) (hd1 : 1 ≤ d) (hd2 : d ≤ 31) (hm1 : 1 ≤ m)
    (hm2 : m ≤ 12) (hy : y ≤ 9999) :
    matchYMD (renderISOList d m y) = some (d, m, y) := by
  have h1 : y / 1000 < 10 := by omega
  have h2 : y / 100 % 10 < 10 := by omega
  have h3 : y / 10 % 10 < 10 := by omega
  have h4 : y % 10 < 10 := by omega
  have hyv : 1000 * (y / 1000) + 100 * (y / 100 % 10) + 10 * (y / 10 % 10) + y % 10 = y := by
    omega
  simp only [matchYMD, renderISOList]
  rw [num4_dch h1 h2 h3 h4, hyv]
  simp only []
  rw [sepLit_sep '-' (show m / 10 < 10 by omega)]
  simp only []
  rw [ymdMonth_render d m y hd1 hd2 hm1 hm2]

/- Failure of the renderings under the formats tried before the matching
one. -/

theorem matchDMY_fail_dmy (sep : List Char → Option (List Char)) (sc' : Char)
    (hdig : ∀ (k : Nat) (t : List Char), k < 10 → sep (dch k :: t) = none)
    (hsc : ∀ t : List Char, sep (sc' :: t) = none)
    (d m y : Nat) (hd : d ≤ 99) (_hm : m ≤ 99) (_hy : y ≤ 9999) :
    matchDMY sep (renderDMYList sc' d m y) = none := by
  have hd10 : d / 10 < 10 := by omega
  have hdm : d % 10 < 10 := by omega
  have hde : 10 * (d / 10) + d % 10 = d := by omega
  simp only [matchDMY, renderDMYList]
  rw [num2_dch hd10 hdm, hde, num1_dch hd10]
  by_cases hc : 1 ≤ d ∧ d ≤ 31
  · rw [if_pos hc]
    simp only []
    rw [dmyMonth_none _ _ _ (hsc _), Option.none_orElse]
    by_cases hc1 : 1 ≤ d / 10 ∧ d / 10 ≤ 9
    · rw [if_pos hc1]
      simp only []
      exact dmyMonth_none _ _ _ (hdig _ _ hdm)
    · rw [if_neg hc1]
  · rw [if_neg hc]
    simp only [Option.none_orElse]
    by_cases hc1 : 1 ≤ d / 10 ∧ d / 10 ≤ 9
    · rw [if_pos hc1]
      simp only []
      exact dmyMonth_none _ _ _ (hdig _ _ hdm)
    · rw [if_neg hc1]

theorem matchDMY_fail_iso (sep : List Char → Option (List Char))
    (hdig : ∀ (k : Nat) (t : List Char), k < 10 → sep (dch k :: t) = none)
    (d m y : Nat) (_hd : d ≤ 99) (_hm : m ≤ 99) (hy : y ≤ 9999) :
    matchDMY sep (renderISOList d m y) = none := by
  have h1 : y / 1000 < 10 := by omega
  have h2 : y / 100 % 10 < 10 := by omega
  have h3 : y / 10 % 10 < 10 := by omega
  simp only [matchDMY, renderISOList]
  rw [num2_dch h1 h2, num1_dch h1]
  by_cases hc : 1 ≤ 10 * (y / 1000) + y / 100 % 10 ∧ 10 * (y / 1000) + y / 100 % 10 ≤ 31
  · rw [if_pos hc]
    simp only []
    rw [dmyMonth_none _ _ _ (hdig _ _ h3), Option.none_orElse]
    by_cases hc1 : 1 ≤ y / 1000 ∧ y / 1000 ≤ 9
    · rw [if_pos hc1]
      simp only []
      exact dmyMonth_none _ _ _ (hdig _ _ h2)
    · rw [if_neg hc1]
  · rw [if_neg hc]
    simp only [Option.none_orElse]
    by_cases hc1 : 1 ≤ y / 1000 ∧ y / 1000 ≤ 9
    · rw [if_pos hc1]
      simp only []
      exact dmyMonth_none _ _ _ (hdig _ _ h2)
    · rw [if_neg hc1]

/- strptime-level packaging. -/

theorem strptimeDate_none (f : DFormat) (s : List Char)
    (h : (match f with
          | .dSpace => matchDMY sepWs s
          | .dSlash => matchDMY (sepLit '/') s
          | .dDash => matchDMY (sepLit '-') s
          | .iso => matchYMD s) = none) : strptimeDate f s = none := by
  simp only [strptimeDate]
  rw [h]

theorem strptimeDate_of_match (f : DFormat) (s : List Char) {d m y : Nat}
    (h : (match f with
          | .dSpace => matchDMY sepWs s
          | .dSlash => matchDMY (sepLit '/') s
          | .dDash => matchDMY (sepLit '-') s
          | .iso => matchYMD s) = some (d, m, y))
    (hy : 1 ≤ y ∧ y ≤ 9999) (hm : 1 ≤ m ∧ m ≤ 12) (hd : 1 ≤ d ∧ d ≤ daysInMonth y m) :
    strptimeDate f s = some ⟨y, m, d⟩ := by
  simp only [strptimeDate]
  rw [h]
  simp only []
  rw [if_pos hy, if_pos hm, if_pos hd]

/- The renderings contain no surrounding whitespace, so strip is the
identity on them. -/

theorem pyStrip_renderDMY (sc : Char) (d m y : Nat) (hd : d ≤ 99) (_hy : y ≤ 9999) :
    pyStrip (renderDMYList sc d m y) = renderDMYList sc d m y := by
  have hd10 : d / 10 < 10 := by omega
  have hym : y % 10 < 10 := by omega
  unfold pyStrip
  rw [show List.dropWhile isPySpace (renderDMYList sc d m y) = renderDMYList sc d m y from
    dropWhile_space_dch hd10 _]
  have hrev : (renderDMYList sc d m y).reverse =
      dch (y % 10) :: dch (y / 10 % 10) :: dch (y / 100 % 10) :: dch (y / 1000) :: sc ::
      dch (m % 10) :: dch (m / 10) :: sc :: dch (d % 10) :: dch (d / 10) :: [] := by
    simp [renderDMYList]
  rw [hrev, dropWhile_space_dch hym, ← hrev, List.reverse_reverse]

theorem pyStrip_renderISO (d m y : Nat) (_hd : d ≤ 99) (hy : y ≤ 9999) :
    pyStrip (renderISOList d m y) = renderISOList d m y := by
  have hy1000 : y / 1000 < 10 := by omega
  have hdm : d % 10 < 10 := by omega
  unfold pyStrip
  rw [show List.dropWhile isPySpace (renderISOList d m y) = renderISOList d m y from
    dropWhile_space_dch hy1000 _]
  have hrev : (renderISOList d m y).reverse =
      dch (d % 10) :: dch (d / 10) :: '-' :: dch (m % 10) :: dch (m / 10) :: '-' ::
      dch (y % 10) :: dch (y / 10 % 10) :: dch (y / 100 % 10) :: dch (y / 1000) :: [] := by
    simp [renderISOList]
  rw [hrev, dropWhile_space_dch hdm, ← hrev, List.reverse_reverse]

/-- C1: for every calendar date with year in [1900, 2100], the four supported
string renderings — DD MM YYYY (space separated), DD/MM/YYYY, DD-MM-YYYY and
ISO YYYY-MM-DD — are all mapped by the flexible date parser to that same
canonical date. -/
theorem flexible_date_four_renderings_agree (y m d : Nat)
    (hy1 : 1900 ≤ y) (hy2 : y ≤ 2100) (hm1 : 1 ≤ m) (hm2 : m ≤ 12)
    (hd1 : 1 ≤ d) (hd2 : d ≤ daysInMonth y m) :
    parse_flexible_date (.vStr (renderDMY ' ' d m y)) = .ok (some ⟨y, m, d⟩) ∧
    parse_flexible_date (.vStr (renderDMY '/' d m y)) = .ok (some ⟨y, m, d⟩) ∧
    parse_flexible_date (.vStr (renderDMY '-' d m y)) = .ok (some ⟨y, m, d⟩) ∧
    parse_flexible_date (.vStr (renderISO d m y)) = .ok (some ⟨y, m, d⟩) := by
  have hd31 : d ≤ 31 := hd2.trans (daysInMonth_le_31 y m)
  have hd99 : d ≤ 99 := by omega
  have hm99 : m ≤ 99 := by omega
  have hy9999 : y ≤ 9999 := by omega
  have hy' : 1 ≤ y ∧ y ≤ 9999 := ⟨by omega, hy9999⟩
  have hm' : 1 ≤ m ∧ m ≤ 12 := ⟨hm1, hm2⟩
  have hd' : 1 ≤ d ∧ d ≤ daysInMonth y m := ⟨hd1, hd2⟩
  have hnr : ¬(y < 1900 ∨ y > 2100) := by omega
  have hWs : ∀ (k : Nat) (t : List Char), k < 10 → sepWs (' ' :: dch k :: t) = some (dch k :: t) :=
    fun k t hk => sepWs_sep hk t
  have hWsD : ∀ (k : Nat) (t : List Char), k < 10 → sepWs (dch k :: t) = none :=
    fun k t hk => sepWs_dch hk t
  have hSl : ∀ (k : Nat) (t : List Char), k < 10 →
      sepLit '/' ('/' :: dch k :: t) = some (dch k :: t) :=
    fun k t hk => sepLit_sep '/' hk t
  have hSlD : ∀ (k : Nat) (t : List Char), k < 10 → sepLit '/' (dch k :: t) = none :=
    fun k t hk => sepLit_ne (dch_ne hk (by decide)) t
  have hDa : ∀ (k : Nat) (t : List Char), k < 10 →
      sepLit '-' ('-' :: dch k :: t) = some (dch k :: t) :=
    fun k t hk => sepLit_sep '-' hk t
  have hDaD : ∀ (k : Nat) (t : List Char), k < 10 → sepLit '-' (dch k :: t) = none :=
    fun k t hk => sepLit_ne (dch_ne hk (by decide)) t
  refine ⟨?_, ?_, ?_, ?_⟩
  · simp only [parse_flexible_date, renderDMY]
    rw [pyStrip_renderDMY ' ' d m y hd99 hy9999]
    simp only [dateFormats, tryFormatsFlexible]
    rw [strptimeDate_of_match .dSpace _
      (matchDMY_render d m y hd1 hd31 hm1 hm2 hy9999 sepWs ' ' hWs) hy' hm' hd']
    simp only []
    rw [if_neg hnr]
  · simp only [parse_flexible_date, renderDMY]
    rw [pyStrip_renderDMY '/' d m y hd99 hy9999]
    simp only [dateFormats, tryFormatsFlexible]
    rw [strptimeDate_none .dSpace _
      (matchDMY_fail_dmy sepWs '/' hWsD (fun t => sepWs_notWs (by decide) t) d m y hd99 hm99 hy9999)]
    simp only []
    rw [strptimeDate_of_match .dSlash _
      (matchDMY_render d m y hd1 hd31 hm1 hm2 hy9999 (sepLit '/') '/' hSl) hy' hm' hd']
    simp only []
    rw [if_neg hnr]
  · simp only [parse_flexible_date, renderDMY]
    rw [pyStrip_renderDMY '-' d m y hd99 hy9999]
    simp only [dateFormats, tryFormatsFlexible]
    rw [strptimeDate_none .dSpace _
      (matchDMY_fail_dmy sepWs '-' hWsD (fun t => sepWs_notWs (by decide) t) d m y hd99 hm99 hy9999)]
    simp only []
    rw [strptimeDate_none .dSlash _
      (matchDMY_fail_dmy (sepLit '/') '-' hSlD (fun t => sepLit_ne (by decide) t) d m y hd99 hm99 hy9999)]
    simp only []
    rw [strptimeDate_of_match .dDash _
      (matchDMY_render d m y hd1 hd31 hm1 hm2 hy9999 (sepLit '-') '-' hDa) hy' hm' hd']
    simp only []
    rw [if_neg hnr]
  · simp only [parse_flexible_date, renderISO]
    rw [pyStrip_renderISO d m y hd99 hy9999]
    simp only [dateFormats, tryFormatsFlexible]
    rw [strptimeDate_none .dSpace _ (matchDMY_fail_iso sepWs hWsD d m y hd99 hm99 hy9999)]
    simp only []
    rw [strptimeDate_none .dSlash _ (matchDMY_fail_iso (sepLit '/') hSlD d m y hd99 hm99 hy9999)]
    simp only []
    rw [strptimeDate_none .dDash _ (matchDMY_fail_iso (sepLit '-') hDaD d m y hd99 hm99 hy9999)]
    simp only []
    rw [strptimeDate_of_match .iso _
      (matchYMD_render d m y hd1 hd31 hm1 hm2 hy9999) hy' hm' hd']
    simp only []
    rw [if_neg hnr]

/-- C1 witness: the date 1990-03-15 satisfies the hypotheses, and its four
renderings "15 03 1990", "15/03/1990", "15-03-1990" and "1990-03-15" all
parse to it. -/
theorem flexible_date_four_renderings_agree_witness :
    (1 ≤ 15 ∧ 15 ≤ daysInMonth 1990 3 ∧ 1900 ≤ 1990 ∧ 1990 ≤ 2100) ∧
    parse_flexible_date (.vStr "15 03 1990") = .ok (some ⟨1990, 3, 15⟩) ∧
    parse_flexible_date (.vStr "15/03/1990") = .ok (some ⟨1990, 3, 15⟩) ∧
    parse_flexible_date (.vStr "15-03-1990") = .ok (some ⟨1990, 3, 15⟩) ∧
    parse_flexible_date (.vStr "1990-03-15") = .ok (some ⟨1990, 3, 15⟩) := by
  obtain ⟨h1, h2, h3, h4⟩ := flexible_date_four_renderings_agree 1990 3 15 (by omega) (by omega)
    (by omega) (by omega) (by omega) (by decide)
  refine ⟨⟨by omega, by decide, by omega, by omega⟩, ?_, ?_, ?_, ?_⟩
  · rw [show ("15 03 1990" : String) = renderDMY ' ' 15 3 1990 from by decide]
    exact h1
  · rw [show ("15/03/1990" : String) = renderDMY '/' 15 3 1990 from by decide]
    exact h2
  · rw [show ("15-03-1990" : String) = renderDMY '-' 15 3 1990 from by decide]
    exact h3
  · rw [show ("1990-03-15" : String) = renderISO 15 3 1990 from by decide]
    exact h4

/- The flexible format loop can only return a date whose year is in range. -/

theorem tryFormatsFlexible_inRange (fs : List DFormat) (s : List Char) {dt : PyDate}
    (h : tryFormatsFlexible fs s = some dt) : 1900 ≤ dt.year ∧ dt.year ≤ 2100 := by
  induction fs with
  | nil => simp [tryFormatsFlexible] at h
  | cons f fs ih =>
    simp only [tryFormatsFlexible] at h
    cases hs : strptimeDate f s with
    | none =>
      rw [hs] at h
      exact ih h
    | some dt' =>
      rw [hs] at h
      simp only [] at h
      by_cases hr : dt'.year < 1900 ∨ dt'.year > 2100
      · rw [if_pos hr] at h
        exact ih h
      · rw [if_neg hr] at h
        injection h with h2
        subst h2
        omega

/-- C2 counterexample: the string "01 01 1850" parses syntactically under the
DD MM YYYY format with the out-of-range year 1850, yet the parser reports the
invalid-format error, not the range error the claim requires: the internal
range ValueError is caught by the format-fallback loop. -/
theorem flexible_date_1850_format_error :
    strptimeDate .dSpace ("01 01 1850".data) = some ⟨1850, 1, 1⟩ ∧
    parse_flexible_date (.vStr "01 01 1850") = .error (.formatError "01 01 1850") ∧
    parse_flexible_date (.vStr "01 01 1850") ≠ .error (.rangeError 1850) := by
  refine ⟨by decide, by decide, by decide⟩

/-- C2 (amended): a date-typed input with year outside [1900, 2100] fails
with the range error naming that year, while a string input never produces a
range error: the parser either succeeds with an in-range date or fails with
the invalid-format error naming the string, because the internal range
ValueError is caught by the fallback chain. -/
theorem flexible_date_out_of_range_behavior :
    (∀ d : PyDate, d.year < 1900 ∨ d.year > 2100 →
      parse_flexible_date (.vDate d) = .error (.rangeError d.year)) ∧
    (∀ s : String, parse_flexible_date (.vStr s) = .error (.formatError s) ∨
      ∃ dt : PyDate, parse_flexible_date (.vStr s) = .ok (some dt) ∧
        1900 ≤ dt.year ∧ dt.year ≤ 2100) := by
  constructor
  · intro d hd
    simp only [parse_flexible_date]
    rw [if_pos hd]
  · intro s
    simp only [parse_flexible_date]
    cases h : tryFormatsFlexible dateFormats (pyStrip s.data) with
    | none =>
      left
      rfl
    | some dt =>
      right
      exact ⟨dt, rfl, tryFormatsFlexible_inRange _ _ h⟩

/-- C2 witness: the date value 1850-01-01 is out of range and fails with the
range error naming 1850, and the string "01 01 1850" falls under the
format-error alternative. -/
theorem flexible_date_out_of_range_behavior_witness :
    ((⟨1850, 1, 1⟩ : PyDate).year < 1900 ∨ (⟨1850, 1, 1⟩ : PyDate).year > 2100) ∧
    parse_flexible_date (.vDate ⟨1850, 1, 1⟩) = .error (.rangeError 1850) ∧
    (parse_flexible_date (.vStr "01 01 1850") = .error (.formatError "01 01 1850") ∨
      ∃ dt : PyDate, parse_flexible_date (.vStr "01 01 1850") = .ok (some dt) ∧
        1900 ≤ dt.year ∧ dt.year ≤ 2100) := by
  refine ⟨Or.inl (by decide), ?_, flexible_date_out_of_range_behavior.2 "01 01 1850"⟩
  exact flexible_date_out_of_range_behavior.1 ⟨1850, 1, 1⟩ (Or.inl (by decide))

/- Supply-point error aggregation when the cups field fails. -/

theorem spAssemble_cups_error (eA : Except (List FieldError) AddressPC) (e : FieldError)
    (dc : Option String) (eP : Except FieldError ℚ) (eV : Except FieldError Int) :
    spAssemble eA (.error e) dc eP eV =
      .error (.validationError (errsOfL eA ++ [e] ++ errsOf eP ++ errsOf eV)) := by
  cases eA <;> cases eP <;> cases eV <;> rfl

/-- C3 counterexample: a supply point whose cups key holds an explicit null
does fail and no record is produced, but the single reported error is the
string-type error, not the missing-field error the claim names for the null
case. -/
theorem supply_point_null_cups_type_error :
    validateSupplyPoint rawSPcupsNull =
      .error (.validationError [⟨["cups"], .stringType⟩]) ∧
    validateSupplyPoint rawSPcupsNull ≠
      .error (.validationError [⟨["cups"], .missing⟩]) := by
  refine ⟨by decide, by decide⟩

/-- C3 (amended): provided the distributor field is not an explicit null
(whose broken validator would abort everything with an AttributeError), a
supply point whose required cups field is missing fails validation with the
missing-field error naming cups, and one whose cups is null fails with the
string-type error naming cups; in both cases the result is an error, so no
partially populated record is ever produced. -/
theorem supply_point_required_cups_failure (r : RawSupplyPoint)
    (hdc : r.distributor_company ≠ .null) :
    (r.cups = .missing → ∃ es, validateSupplyPoint r = .error (.validationError es) ∧
      FieldError.mk ["cups"] .missing ∈ es) ∧
    (r.cups = .null → ∃ es, validateSupplyPoint r = .error (.validationError es) ∧
      FieldError.mk ["cups"] .stringType ∈ es) := by
  constructor
  · intro hc
    refine ⟨errsOfL (validateAddressPCField "address" r.address) ++ [⟨["cups"], .missing⟩] ++
      errsOf (reqNum "contracted_power" r.contracted_power) ++
      errsOf (reqInt "voltage_find" r.voltage_find), ?_, by simp⟩
    rcases hd : r.distributor_company with _ | _ | dcs
    · simp only [validateSupplyPoint, hd, hc, reqStr]
      exact spAssemble_cups_error _ _ _ _ _
    · exact absurd hd hdc
    · simp only [validateSupplyPoint, hd, hc, reqStr, validate_distributor_company]
      exact spAssemble_cups_error _ _ _ _ _
  · intro hc
    refine ⟨errsOfL (validateAddressPCField "address" r.address) ++ [⟨["cups"], .stringType⟩] ++
      errsOf (reqNum "contracted_power" r.contracted_power) ++
      errsOf (reqInt "voltage_find" r.voltage_find), ?_, by simp⟩
    rcases hd : r.distributor_company with _ | _ | dcs
    · simp only [validateSupplyPoint, hd, hc, reqStr]
      exact spAssemble_cups_error _ _ _ _ _
    · exact absurd hd hdc
    · simp only [validateSupplyPoint, hd, hc, reqStr, validate_distributor_company]
      exact spAssemble_cups_error _ _ _ _ _

/-- C3 witness: the concrete supply point with no cups key satisfies the
hypotheses and fails with the missing-field error naming cups. -/
theorem supply_point_required_cups_failure_witness :
    rawSPcupsMissing.distributor_company ≠ .null ∧ rawSPcupsMissing.cups = .missing ∧
    ∃ es, validateSupplyPoint rawSPcupsMissing = .error (.validationError es) ∧
      FieldError.mk ["cups"] .missing ∈ es := by
  refine ⟨by decide, by decide, ?_⟩
  exact (supply_point_required_cups_failure rawSPcupsMissing (by decide)).1 (by decide)

/-- C4: evaluation of the distributor branches at concrete inputs.  A
declared value is trimmed; an explicit null makes the field validator
evaluate `cls.cups`, which raises AttributeError (no structured
unknown-distributor error, no lookup ever happens); a missing distributor
key skips the validator entirely, leaving None without any cups-prefix
derivation. -/
theorem distributor_company_branch_eval :
    validateSupplyPoint rawSPdistPad = .ok spTrimmed ∧
    spTrimmed.distributor_company = some "IBERDROLA" ∧
    validateSupplyPoint rawSPdistNull = .error (.attributeError "cups") ∧
    validate_distributor_company none = .error (.attributeError "cups") ∧
    validateSupplyPoint rawSPdistMissing = .ok spNoDist ∧
    spNoDist.distributor_company = none := by
  refine ⟨by decide, by decide, by decide, by decide, by decide, by decide⟩

/-- C5: every validated supply point carries the banded voltage pair derived
from its raw reading: (230, MONOFÁSICO) exactly when the reading is at least
300 — the threshold belongs to the lower band — and (400,
BIFÁSICO/TRIFÁSICO) when it is below 300; the pair is defined for every
reading. -/
theorem supply_point_voltage_banding (r : RawSupplyPoint) (sp : SupplyPointData)
    (h : validateSupplyPoint r = .ok sp) :
    (300 ≤ sp.voltage_find → sp.voltage = 230 ∧ sp.voltage_text = "MONOFÁSICO") ∧
    (sp.voltage_find < 300 → sp.voltage = 400 ∧ sp.voltage_text = "BIFÁSICO/TRIFÁSICO") := by
  simp only [validateSupplyPoint] at h
  split at h
  · exact absurd h (by simp)
  · rename_i dc heq
    simp only [spAssemble] at h
    split at h
    · rename_i a c p v heqA heqC heqP heqV
      rw [Except.ok.injEq] at h
      subst h
      simp only [calculate_voltage]
      by_cases hv : (300 : Int) ≤ v
      · rw [if_pos (show (300 : Int) ≤
          ({address := a, cups := c, distributor_company := dc, contracted_power := p,
            voltage_find := v, voltage := 0, voltage_text := ""} : SupplyPointData).voltage_find
          from hv)]
        constructor
        · intro _
          exact ⟨rfl, rfl⟩
        · intro hlt
          have hlt' : v < 300 := hlt
          omega
      · rw [if_neg (show ¬(300 : Int) ≤
          ({address := a, cups := c, distributor_company := dc, contracted_power := p,
            voltage_find := v, voltage := 0, voltage_text := ""} : SupplyPointData).voltage_find
          from hv)]
        constructor
        · intro hge
          have hge' : (300 : Int) ≤ v := hge
          omega
        · intro _
          exact ⟨rfl, rfl⟩
    · exact absurd h (by simp)

/-- C5 witness: the concrete readings 300 and 299 validate and land in the
230/MONOFÁSICO and 400/BIFÁSICO-TRIFÁSICO bands respectively. -/
theorem supply_point_voltage_banding_witness :
    validateSupplyPoint rawSP300 = .ok sp300val ∧
    (300 ≤ sp300val.voltage_find ∧ sp300val.voltage = 230 ∧
      sp300val.voltage_text = "MONOFÁSICO") ∧
    validateSupplyPoint rawSP299 = .ok sp299val ∧
    (sp299val.voltage_find < 300 ∧ sp299val.voltage = 400 ∧
      sp299val.voltage_text = "BIFÁSICO/TRIFÁSICO") := by
  have h300 := (supply_point_voltage_banding rawSP300 sp300val (by decide)).1 (by decide)
  have h299 := (supply_point_voltage_banding rawSP299 sp299val (by decide)).2 (by decide)
  exact ⟨by decide, ⟨by decide, h300.1, h300.2⟩, by decide, ⟨by decide, h299.1, h299.2⟩⟩

/-- C6 counterexample: a raw front whose emission (issue) date 2030-03-15
postdates its validity date 2020-03-15 is accepted: validation returns the
record instead of the inconsistency rejection the claim requires, and the
parsed issue date indeed lies after the parsed validity date. -/
theorem front_issue_after_validity_accepted :
    validateDocumentIDFront rawFrontOV = .ok frontOV ∧
    frontOV.validate_date = some ⟨2020, 3, 15⟩ ∧
    frontOV.emision_date = some ⟨2030, 3, 15⟩ := by
  refine ⟨by decide, by decide, by decide⟩

/-- C6 (amended): the validator parses the three date strings independently
and performs no cross-field ordering check: whenever each date string
parses, the front validates successfully, whatever the ordering of the
resulting dates; no inconsistency error exists in the code. -/
theorem front_no_date_ordering_check (bs vs es : String) (bd vd ed : Option PyDate)
    (hb : parse_date_string (some bs) = .ok bd)
    (hv : parse_date_string (some vs) = .ok vd)
    (he : parse_date_string (some es) = .ok ed) :
    validateDocumentIDFront (mkRawFront (.val bs) (.val vs) (.val es)) =
      .ok (mkFront bs vs (some es) bd vd ed) := by
  simp only [validateDocumentIDFront, mkRawFront, mkFront, reqStr, optStr]
  rw [show reqStr9 "id_number" (RawVal.val "12345678Z") = .ok "12345678Z" from rfl]
  simp only []
  rw [hb]
  simp only []
  rw [hv]
  simp only []
  rw [he]

/-- C6 witness: instantiating with birth 1990-03-15, validity 2020-03-15 and
emission 2030-03-15 — the emission string parses to a date after the
validity date and the record is still accepted. -/
theorem front_no_date_ordering_check_witness :
    parse_date_string (some "15 03 1990") = .ok (some ⟨1990, 3, 15⟩) ∧
    parse_date_string (some "15 03 2020") = .ok (some ⟨2020, 3, 15⟩) ∧
    parse_date_string (some "15 03 2030") = .ok (some ⟨2030, 3, 15⟩) ∧
    validateDocumentIDFront rawFrontOV = .ok frontOV := by
  refine ⟨by decide, by decide, by decide, ?_⟩
  exact front_no_date_ordering_check "15 03 1990" "15 03 2020" "15 03 2030"
    (some ⟨1990, 3, 15⟩) (some ⟨2020, 3, 15⟩) (some ⟨2030, 3, 15⟩)
    (by decide) (by decide) (by decide)

/- Properties of the left fold with max. -/

theorem foldl_max_mem (x : ℚ) (xs : List ℚ) : xs.foldl max x ∈ x :: xs := by
  induction xs generalizing x with
  | nil => simp [List.foldl]
  | cons a xs ih =>
    simp only [List.foldl]
    have h2 := ih (max x a)
    rcases List.mem_cons.mp h2 with h3 | h3
    · rw [h3]
      rcases max_choice x a with h4 | h4 <;> rw [h4] <;> simp
    · simp [h3]

theorem foldl_max_le (x : ℚ) (xs : List ℚ) : ∀ z ∈ x :: xs, z ≤ xs.foldl max x := by
  induction xs generalizing x with
  | nil =>
    intro z hz
    rw [List.mem_singleton] at hz
    simp [hz, List.foldl]
  | cons a xs ih =>
    intro z hz
    simp only [List.foldl]
    have hhead : max x a ≤ List.foldl max (max x a) xs :=
      ih (max x a) (max x a) (List.mem_cons_self _ _)
    rcases List.mem_cons.mp hz with h | h
    · subst h
      exact le_trans (le_max_left _ _) hhead
    · rcases List.mem_cons.mp h with h2 | h2
      · subst h2
        exact le_trans (le_max_right _ _) hhead
      · exact ih (max x a) z (List.mem_cons.mpr (Or.inr h2))

/-- C7: for every non-empty sequence of candidate readings the resolver
returns an element of the sequence that bounds every reading from above —
the maximum; in particular [3.3, 5.75, 4.0] gives 5.75. -/
theorem max_contracted_power_spec :
    (∀ (x : ℚ) (xs : List ℚ), ∃ mx, max_contracted_power (x :: xs) = some mx ∧
      mx ∈ x :: xs ∧ ∀ z ∈ x :: xs, z ≤ mx) ∧
    max_contracted_power [33/10, 575/100, 4] = some (575/100) := by
  constructor
  · intro x xs
    exact ⟨xs.foldl max x, rfl, foldl_max_mem x xs, foldl_max_le x xs⟩
  · show some (List.foldl max (33/10) [575/100, 4]) = some (575/100)
    norm_num [List.foldl, max_def]

/-- C7 witness: the resolver applied to the example readings returns a
maximum that is one of them and bounds them all. -/
theorem max_contracted_power_spec_witness :
    ∃ mx, max_contracted_power [(33 : ℚ)/10, 575/100, 4] = some mx ∧
      mx ∈ [(33 : ℚ)/10, 575/100, 4] ∧ ∀ z ∈ [(33 : ℚ)/10, 575/100, 4], z ≤ mx :=
  max_contracted_power_spec.1 (33/10) [575/100, 4]

/- Inversion of a successful front validation. -/

theorem reqStr_ok {n s : String} {v : RawVal String} (h : reqStr n v = .ok s) :
    v = .val s := by
  cases v with
  | missing => exact absurd h (by simp [reqStr])
  | null => exact absurd h (by simp [reqStr])
  | val a =>
    simp only [reqStr] at h
    rw [Except.ok.injEq] at h
    rw [h]

theorem validateFront_ok_inv {r : RawFront} {f : DocumentIDFront}
    (h : validateDocumentIDFront r = .ok f) :
    r.first_name = .val f.first_name ∧ r.first_surname = .val f.first_surname ∧
    f.emision_date_str = optStr r.emision_date_str ∧
    parse_date_string (some f.birth_date_str) = .ok f.birth_date ∧
    parse_date_string (some f.validate_date_str) = .ok f.validate_date ∧
    parse_date_string (optStr r.emision_date_str) = .ok f.emision_date := by
  simp only [validateDocumentIDFront] at h
  split at h
  · rename_i fn fs ss idn sx bs vs heq1 heq2 heq3 heq4 heq5 heq6 heq7
    split at h
    · exact absurd h (by simp)
    · rename_i bd heqB
      split at h
      · exact absurd h (by simp)
      · rename_i vd heqV
        split at h
        · exact absurd h (by simp)
        · rename_i ed heqE
          rw [Except.ok.injEq] at h
          subst h
          exact ⟨reqStr_ok heq1, reqStr_ok heq2, rfl, heqB, heqV, heqE⟩
  · exact absurd h (by simp)

/-- C8 counterexample: a front record with empty first_name and empty
first_surname validates successfully, so the non-emptiness invariant the
claim states is not enforced by the strict schema. -/
theorem front_empty_names_accepted :
    validateDocumentIDFront rawFrontEmptyNames = .ok frontEmptyNames ∧
    frontEmptyNames.first_name = "" ∧ frontEmptyNames.first_surname = "" := by
  refine ⟨by decide, by decide, by decide⟩

/-- C8 (amended): successful validation guarantees only presence, not
non-emptiness: in every validated front the first_name and first_surname
keys were present in the raw object with non-null string values — the
values themselves may be empty strings. -/
theorem front_requires_name_presence_only (r : RawFront) (f : DocumentIDFront)
    (h : validateDocumentIDFront r = .ok f) :
    r.first_name = .val f.first_name ∧ r.first_surname = .val f.first_surname :=
  ⟨(validateFront_ok_inv h).1, (validateFront_ok_inv h).2.1⟩

/-- C8 witness: the record with empty names instantiates the amended
theorem: its raw object carried the (empty) strings. -/
theorem front_requires_name_presence_only_witness :
    rawFrontEmptyNames.first_name = .val frontEmptyNames.first_name ∧
    rawFrontEmptyNames.first_surname = .val frontEmptyNames.first_surname :=
  front_requires_name_presence_only rawFrontEmptyNames frontEmptyNames (by decide)

/- The parse_dates helper only succeeds on strings through an in-range parse
under one of the four formats. -/

theorem tryFormatsDoc_some {fs : List DFormat} {l : List Char} {dt : PyDate}
    (h : tryFormatsDoc fs l = some dt) :
    (1900 ≤ dt.year ∧ dt.year ≤ 2100) ∧ ∃ g ∈ fs, strptimeDate g l = some dt := by
  induction fs with
  | nil => simp [tryFormatsDoc] at h
  | cons f fs ih =>
    simp only [tryFormatsDoc] at h
    cases hs : strptimeDate f l with
    | none =>
      rw [hs] at h
      obtain ⟨h1, g, hg, hh⟩ := ih h
      exact ⟨h1, g, List.mem_cons.mpr (Or.inr hg), hh⟩
    | some dt' =>
      rw [hs] at h
      simp only [] at h
      by_cases hr : 1900 ≤ dt'.year ∧ dt'.year ≤ 2100
      · rw [if_pos hr] at h
        injection h with h2
        subst h2
        exact ⟨hr, f, List.mem_cons_self _ _, hs⟩
      · rw [if_neg hr] at h
        obtain ⟨h1, g, hg, hh⟩ := ih h
        exact ⟨h1, g, List.mem_cons.mpr (Or.inr hg), hh⟩

theorem parse_date_string_some_ok {s : String} {o : Option PyDate}
    (h : parse_date_string (some s) = .ok o) :
    ∃ dt, o = some dt ∧ (1900 ≤ dt.year ∧ dt.year ≤ 2100) ∧
      ∃ g ∈ dateFormats, strptimeDate g (pyStrip s.data) = some dt := by
  simp only [parse_date_string] at h
  cases ht : tryFormatsDoc dateFormats (pyStrip s.data) with
  | none =>
    rw [ht] at h
    exact absurd h (by simp)
  | some dt =>
    rw [ht] at h
    simp only [] at h
    rw [Except.ok.injEq] at h
    subst h
    obtain ⟨h1, hg⟩ := tryFormatsDoc_some ht
    exact ⟨dt, rfl, h1, hg⟩

/-- C10: in every successfully validated front the parsed dates agree with
their raw string counterparts: birth_date and validate_date are non-null
dates with year in [1900, 2100] obtained by parsing the stored strings under
one of the four accepted formats, and emision_date is null exactly when the
raw emission string is null (and otherwise parses from it likewise). -/
theorem front_parsed_dates_agree (r : RawFront) (f : DocumentIDFront)
    (h : validateDocumentIDFront r = .ok f) :
    (∃ bd, f.birth_date = some bd ∧ 1900 ≤ bd.year ∧ bd.year ≤ 2100 ∧
      ∃ g ∈ dateFormats, strptimeDate g (pyStrip f.birth_date_str.data) = some bd) ∧
    (∃ vd, f.validate_date = some vd ∧ 1900 ≤ vd.year ∧ vd.year ≤ 2100 ∧
      ∃ g ∈ dateFormats, strptimeDate g (pyStrip f.validate_date_str.data) = some vd) ∧
    (f.emision_date = none ↔ f.emision_date_str = none) ∧
    (∀ s, f.emision_date_str = some s → ∃ ed, f.emision_date = some ed ∧
      1900 ≤ ed.year ∧ ed.year ≤ 2100 ∧
      ∃ g ∈ dateFormats, strptimeDate g (pyStrip s.data) = some ed) := by
  obtain ⟨-, -, hes, hb, hv, he⟩ := validateFront_ok_inv h
  rw [← hes] at he
  refine ⟨?_, ?_, ?_, ?_⟩
  · obtain ⟨bd, hbd, hr, hg⟩ := parse_date_string_some_ok hb
    exact ⟨bd, hbd, hr.1, hr.2, hg⟩
  · obtain ⟨vd, hvd, hr, hg⟩ := parse_date_string_some_ok hv
    exact ⟨vd, hvd, hr.1, hr.2, hg⟩
  · cases hemi : f.emision_date_str with
    | none =>
      rw [hemi] at he
      simp only [parse_date_string] at he
      rw [Except.ok.injEq] at he
      simp [← he]
    | some s =>
      rw [hemi] at he
      obtain ⟨ed, hed, -, -⟩ := parse_date_string_some_ok he
      simp [hed]
  · intro s hemi
    rw [hemi] at he
    obtain ⟨ed, hed, hr, hg⟩ := parse_date_string_some_ok he
    exact ⟨ed, hed, hr.1, hr.2, hg⟩

/-- C10 witness: a concrete valid front using the slash and ISO formats and
a null emission string: validation succeeds, and the null-agreement between
emision_date and emision_date_str holds. -/
theorem front_parsed_dates_agree_witness :
    validateDocumentIDFront rawFrontC10 = .ok frontC10 ∧
    (frontC10.emision_date = none ↔ frontC10.emision_date_str = none) ∧
    frontC10.birth_date = some ⟨1985, 5, 2⟩ := by
  refine ⟨by decide, ?_, by decide⟩
  exact (front_parsed_dates_agree rawFrontC10 frontC10 (by decide)).2.2.1

/-- C9 counterexample: a raw identity document lacking both the front and
the back key is rejected with missing-field errors for both sides — absence
of a side (as a missing key) does by itself cause rejection, because both
fields are declared without defaults. -/
theorem documentID_missing_sides_rejected :
    validateDocumentID ⟨.missing, .missing⟩ =
      .error [⟨["front"], .missing⟩, ⟨["back"], .missing⟩] := by
  decide

/-- C9 (amended): front and back are required but nullable, and independent:
explicit nulls are accepted for either or both sides, a valid present side
validates alongside a null one, and a raw object lacking the front or back
key is rejected with a missing error naming that side. -/
theorem documentID_nullable_sides :
    (validateDocumentID ⟨.null, .null⟩ = .ok ⟨none, none⟩) ∧
    (∀ (rf : RawFront) (f : DocumentIDFront), validateDocumentIDFront rf = .ok f →
      validateDocumentID ⟨.val rf, .null⟩ = .ok ⟨some f, none⟩) ∧
    (∀ (rb : RawBack) (b : DocumentIDBack), validateDocumentIDBack rb = .ok b →
      validateDocumentID ⟨.null, .val rb⟩ = .ok ⟨none, some b⟩) ∧
    (∀ r : RawDocID, r.front = .missing →
      ∃ es, validateDocumentID r = .error es ∧ FieldError.mk ["front"] .missing ∈ es) ∧
    (∀ r : RawDocID, r.back = .missing →
      ∃ es, validateDocumentID r = .error es ∧ FieldError.mk ["back"] .missing ∈ es) := by
  refine ⟨by decide, ?_, ?_, ?_, ?_⟩
  · intro rf f h
    simp only [validateDocumentID]
    rw [h]
  · intro rb b h
    simp only [validateDocumentID]
    rw [h]
  · intro r hf
    rcases r with ⟨fr, bk⟩
    simp only [] at hf
    subst hf
    rcases bk with _ | _ | rb
    · exact ⟨[⟨["front"], .missing⟩, ⟨["back"], .missing⟩], by decide, by simp⟩
    · exact ⟨[⟨["front"], .missing⟩], by decide, by simp⟩
    · cases hb : validateDocumentIDBack rb with
      | ok b =>
        refine ⟨[⟨["front"], .missing⟩], ?_, by simp⟩
        simp only [validateDocumentID]
        rw [hb]
        rfl
      | error es =>
        refine ⟨[⟨["front"], .missing⟩] ++ locErrs "back" es, ?_, by simp⟩
        simp only [validateDocumentID]
        rw [hb]
        rfl
  · intro r hb
    rcases r with ⟨fr, bk⟩
    simp only [] at hb
    subst hb
    rcases fr with _ | _ | rf
    · exact ⟨[⟨["front"], .missing⟩, ⟨["back"], .missing⟩], by decide, by simp⟩
    · exact ⟨[⟨["back"], .missing⟩], by decide, by simp⟩
    · cases hf : validateDocumentIDFront rf with
      | ok f =>
        refine ⟨[⟨["back"], .missing⟩], ?_, by simp⟩
        simp only [validateDocumentID]
        rw [hf]
        rfl
      | error es =>
        refine ⟨locErrs "front" es ++ [⟨["back"], .missing⟩], ?_, by simp⟩
        simp only [validateDocumentID]
        rw [hf]
        rfl

/-- C9 witness: both explicit nulls validate to the empty document, and the
object missing both keys instantiates the missing-front rejection. -/
theorem documentID_nullable_sides_witness :
    validateDocumentID ⟨.null, .null⟩ = .ok ⟨none, none⟩ ∧
    (⟨.missing, .missing⟩ : RawDocID).front = .missing ∧
    (∃ es, validateDocumentID ⟨.missing, .missing⟩ = .error es ∧
      FieldError.mk ["front"] .missing ∈ es) ∧
    validateDocumentID ⟨.val rawFrontC10, .null⟩ = .ok ⟨some frontC10, none⟩ := by
  refine ⟨documentID_nullable_sides.1, by decide,
    documentID_nullable_sides.2.2.2.1 ⟨.missing, .missing⟩ (by decide), ?_⟩
  exact documentID_nullable_sides.2.1 rawFrontC10 frontC10 (by decide)
